import Mathlib

/-!
Shallow embedding of the tg_poll_bot repository (src/bot_poll.py and
src/google_sheets_logger.py).

The SQLite tables are modelled as in-memory association lists carried in a
`DB` record; each Python handler or store operation becomes a pure state
transformer over `DB`.  Python strings are modelled as `List Char` where
character-level manipulation matters (payload parsing, sheet-name
sanitising) and as `String` where they are only stored and compared.
Timestamps (`created_at`, `updated_at`, `CURRENT_TIMESTAMP`) are real-time
values irrelevant to every claim and are omitted from the row model.
-/

/-- Python truthiness of an optional string: `None` and `""` are falsy. -/
def pyTruthyStr : Option String → Bool
  | none => false
  | some s => s != ""

/-- Python truthiness of an optional integer: `None` and `0` are falsy. -/
def pyTruthyInt : Option Int → Bool
  | none => false
  | some i => i != 0

/-- ASCII whitespace recognised by Python `str.strip`/`str.split`
(space, tab, newline, carriage return, vertical tab, form feed). -/
def isSpaceChar (c : Char) : Bool :=
  c == ' ' || c == '\t' || c == '\n' || c == '\r' ||
    c == Char.ofNat 11 || c == Char.ofNat 12

/-- Python `str.lstrip()`. -/
def pyLstrip (l : List Char) : List Char :=
  l.dropWhile isSpaceChar

/-- Python `str.rstrip()`. -/
def pyRstrip (l : List Char) : List Char :=
  (l.reverse.dropWhile isSpaceChar).reverse

/-- Python `str.strip()`. -/
def pyStrip (l : List Char) : List Char :=
  pyRstrip (pyLstrip l)

/-- `needle` is a leading segment of `haystack` (Python `str.startswith`). -/
def pyStartsWith : List Char → List Char → Bool
  | [], _ => true
  | _ :: _, [] => false
  | c :: cs, d :: ds => c == d && pyStartsWith cs ds

/-- Index of the first occurrence of `needle` in the list, if any
(Python `needle in s` / the split point of `s.split(needle, 1)`). -/
def findSub (needle : List Char) : List Char → Option Nat
  | [] => if needle.length == 0 then some 0 else none
  | c :: rest =>
    if pyStartsWith needle (c :: rest) then some 0
    else (findSub needle rest).map (· + 1)

/-- Numeric value of an ASCII digit. -/
def digitVal (c : Char) : Nat := c.toNat - '0'.toNat

/-- Left fold computing the value of a digit string, skipping the `_`
grouping separators Python `int()` accepts. -/
def usDigitsValGo (acc : Nat) : List Char → Nat
  | [] => acc
  | '_' :: rest => usDigitsValGo acc rest
  | c :: rest => usDigitsValGo (acc * 10 + digitVal c) rest

/-- After an initial digit, Python `int()` accepts digits with single
embedded `_` separators: this checks the `(('_')? digit)*` tail. -/
def pyIntTail : List Char → Bool
  | [] => true
  | ['_'] => false
  | '_' :: c :: rs => c.isDigit && pyIntTail rs
  | c :: rest => c.isDigit && pyIntTail rest

/-- A non-empty unsigned ASCII digit string with optional single `_`
separators between digits, as accepted by Python `int()`. -/
def pyIntBody : List Char → Bool
  | [] => false
  | c :: rest => c.isDigit && pyIntTail rest

/-- Python `int(s)` (ASCII digits; surrounding whitespace and a single
leading sign are allowed, `ValueError` becomes `none`).  Non-ASCII digit
characters, also accepted by Python, are outside the modelled alphabet. -/
def pyParseInt (l : List Char) : Option Int :=
  match pyStrip l with
  | '+' :: rest => if pyIntBody rest then some ((usDigitsValGo 0 rest : Nat) : Int) else none
  | '-' :: rest => if pyIntBody rest then some (-((usDigitsValGo 0 rest : Nat) : Int)) else none
  | rest => if pyIntBody rest then some ((usDigitsValGo 0 rest : Nat) : Int) else none

/-- Decimal rendering of an integer, as Python `str`/f-strings produce. -/
def pyIntRepr (i : Int) : List Char :=
  match i with
  | .ofNat n => Nat.toDigits 10 n
  | .negSucc n => '-' :: Nat.toDigits 10 (n + 1)

/-! ## Data model: the SQLite tables of bot_poll.py -/

/-- One row of `poll_responses` (timestamps omitted; `notified` and
`reminder_sent` are the SQLite `INTEGER DEFAULT 0` flags, only ever
written 0 or 1, modelled as `Bool`). -/
structure PollRow where
  referrer_id : Option Int
  note_id : Option Int
  age : Option String
  income : Option String
  device : Option String
  notified : Bool
  reminder_sent : Bool
deriving DecidableEq, Repr

/-- One row of `referral_clicks` (timestamp omitted; the table's UNIQUE
constraint is over `(referrer_id, referred_user_id)` only — `note_id` was
added later by `ALTER TABLE` and is not part of the key). -/
structure ClickRow where
  referrer_id : Int
  referred_user_id : Int
  note_id : Option Int
deriving DecidableEq, Repr

/-- The relational state of bot_poll.py.  `poll_responses` is keyed by
user id (its PRIMARY KEY), `referral_settings` maps a user to an optional
notification group, `groups` maps chat id to title. -/
structure DB where
  poll_responses : List (Int × PollRow)
  referral_clicks : List ClickRow
  note_clicks : List (Int × Int)
  referral_settings : List (Int × Option Int)
  groups : List (Int × String)
deriving DecidableEq, Repr

def emptyDB : DB := ⟨[], [], [], [], []⟩

/-- `SELECT ... FROM poll_responses WHERE user_id = ?` (PRIMARY KEY). -/
def lookupPoll (uid : Int) : List (Int × PollRow) → Option PollRow
  | [] => none
  | (k, r) :: rest => if k = uid then some r else lookupPoll uid rest

/-- `UPDATE poll_responses SET ... WHERE user_id = ?`: rewrite the rows
whose key matches (at most one, by the PRIMARY KEY). -/
def setPoll (uid : Int) (f : PollRow → PollRow) : List (Int × PollRow) → List (Int × PollRow)
  | [] => []
  | (k, r) :: rest => (k, if k = uid then f r else r) :: setPoll uid f rest

/-! ## Store operations of bot_poll.py -/

/-- `record_referral_click` (src/bot_poll.py:357): `INSERT OR IGNORE` into
`referral_clicks`, whose UNIQUE constraint covers only
`(referrer_id, referred_user_id)`.  The Python function returns `None`. -/
def record_referral_click (referrer_id referred_user_id : Int) (note_id : Option Int)
    (db : DB) : DB :=
  if db.referral_clicks.any fun c =>
      c.referrer_id == referrer_id && c.referred_user_id == referred_user_id then
    db
  else
    { db with referral_clicks := db.referral_clicks ++ [⟨referrer_id, referred_user_id, note_id⟩] }

/-- `record_note_click` (src/bot_poll.py:373): unconditional INSERT. -/
def record_note_click (note_id user_id : Int) (db : DB) : DB :=
  { db with note_clicks := db.note_clicks ++ [(note_id, user_id)] }

/-- `ensure_poll_row` (src/bot_poll.py:385): upsert with
`referrer_id = COALESCE(existing, excluded)` and
`note_id = CASE WHEN excluded IS NOT NULL THEN excluded ELSE existing END`. -/
def ensure_poll_row (user_id : Int) (referrer_id note_id : Option Int) (db : DB) : DB :=
  match lookupPoll user_id db.poll_responses with
  | none =>
    { db with poll_responses := db.poll_responses ++
        [(user_id,
          { referrer_id := referrer_id, note_id := note_id, age := none,
            income := none, device := none, notified := false, reminder_sent := false })] }
  | some _ =>
    { db with poll_responses := setPoll user_id (fun r =>
        { r with
          referrer_id := match r.referrer_id with
            | some v => some v
            | none => referrer_id
          note_id := match note_id with
            | some n => some n
            | none => r.note_id }) db.poll_responses }

/-- The `referral_clicks` fallback query of `get_referrer_id`
(src/bot_poll.py:469): first click row for the user, guarded by Python
truthiness of the fetched `referrer_id`. -/
def referrerFromClicks (user_id : Int) (db : DB) : Option Int :=
  match db.referral_clicks.find? (fun c => c.referred_user_id == user_id) with
  | some c => if c.referrer_id != 0 then some c.referrer_id else none
  | none => none

/-- `get_referrer_id` (src/bot_poll.py:459): the poll row's `referrer_id`
if truthy, else the first matching `referral_clicks` row's referrer. -/
def get_referrer_id (user_id : Int) (db : DB) : Option Int :=
  match lookupPoll user_id db.poll_responses with
  | some row =>
    match row.referrer_id with
    | some v => if v != 0 then some v else referrerFromClicks user_id db
    | none => referrerFromClicks user_id db
  | none => referrerFromClicks user_id db

/-- `update_poll_response` (src/bot_poll.py:407): ensures the row, then,
when at least one field is supplied, updates exactly the supplied fields
and unconditionally sets `notified = 0`. -/
def update_poll_response (user_id : Int) (age income device : Option String) (db : DB) : DB :=
  let referrer_id := get_referrer_id user_id db
  let db1 := ensure_poll_row user_id referrer_id none db
  if age.isNone && income.isNone && device.isNone then db1
  else
    { db1 with poll_responses := setPoll user_id (fun r =>
        { r with
          age := match age with | some a => some a | none => r.age
          income := match income with | some i => some i | none => r.income
          device := match device with | some d => some d | none => r.device
          notified := false }) db1.poll_responses }

/-- `was_notified` (src/bot_poll.py:507): `bool(row and row[0])`. -/
def was_notified (user_id : Int) (db : DB) : Bool :=
  match lookupPoll user_id db.poll_responses with
  | some row => row.notified
  | none => false

/-- `mark_notified` (src/bot_poll.py:517). -/
def mark_notified (user_id : Int) (db : DB) : DB :=
  { db with poll_responses := setPoll user_id (fun r => { r with notified := true }) db.poll_responses }

/-- `mark_reminder_sent` (src/bot_poll.py:526). -/
def mark_reminder_sent (user_id : Int) (db : DB) : DB :=
  { db with poll_responses := setPoll user_id (fun r => { r with reminder_sent := true }) db.poll_responses }

/-- `reset_reminder_sent` (src/bot_poll.py:535). -/
def reset_reminder_sent (user_id : Int) (db : DB) : DB :=
  { db with poll_responses := setPoll user_id (fun r => { r with reminder_sent := false }) db.poll_responses }

/-- Modelled from the spec: `try_claim_notification` is exercised by the
repository's tests (src/tests/test_referral_clicks.py) but absent from
src/bot_poll.py, which only has the separate `was_notified` /
`mark_notified` pair.  Spec contract: "atomically reads the current
`notified` flag and, if false, sets it true and returns success; if
already true, returns failure without side effects" — a conditional
update matching no row (no poll row) also claims nothing and fails. -/
def try_claim_notification (user_id : Int) (db : DB) : Bool × DB :=
  match lookupPoll user_id db.poll_responses with
  | none => (false, db)
  | some row =>
    if row.notified then (false, db)
    else
      (true,
        { db with poll_responses :=
            setPoll user_id (fun r => { r with notified := true }) db.poll_responses })

/-! ## Reminder tasks and handlers of bot_poll.py -/

/-- The process-local `REMINDER_TASKS` registry: user id to task token
(`asyncio.Task` identity abstracted to a `Nat`). -/
abbrev Tasks := List (Int × Nat)

/-- `cancel_reminder_task` (src/bot_poll.py:560): `REMINDER_TASKS.pop(user_id)`
removes the user's binding (and cancels the task, which in this sequential
model simply ceases to exist). -/
def cancel_reminder_task (user_id : Int) (tasks : Tasks) : Tasks :=
  tasks.filter (fun t => t.1 != user_id)

/-- `schedule_reminder` (src/bot_poll.py:566): cancel the previous task,
then register a fresh one under the user's key. -/
def schedule_reminder (user_id : Int) (task : Nat) (tasks : Tasks) : Tasks :=
  (user_id, task) :: cancel_reminder_task user_id tasks

/-- The body of `reminder_worker` after its sleep (src/bot_poll.py:569):
re-read the poll row; send the reminder only when the row exists, the
device question is unanswered and `reminder_sent` is unset, then mark
`reminder_sent`.  Returns whether the reminder message was sent. -/
def reminder_worker_wake (user_id : Int) (db : DB) : Bool × DB :=
  match lookupPoll user_id db.poll_responses with
  | none => (false, db)
  | some row =>
    if pyTruthyStr row.device || row.reminder_sent then (false, db)
    else (true, mark_reminder_sent user_id db)

/-- `get_user_group` (src/bot_poll.py:339): join of `referral_settings`
with `groups`; `none` when the user has no setting, the setting's group is
NULL, or the group row is absent. -/
def get_user_group (user_id : Int) (db : DB) : Option (Int × String) :=
  match db.referral_settings.find? (fun s => s.1 == user_id) with
  | some (_, some gid) =>
    match db.groups.find? (fun g => g.1 == gid) with
    | some (_, title) => some (gid, title)
    | none => none
  | some (_, none) => none
  | none => none

/-- `notify_group_about_poll` (src/bot_poll.py:616): state effect only —
the lead-summary message text is formatting and is not modelled; the
returned `Bool` says whether the group message was sent (after which
`notified` is set). -/
def notify_group_about_poll (user_id : Int) (db : DB) : Bool × DB :=
  match lookupPoll user_id db.poll_responses with
  | none => (false, db)
  | some row =>
    if !pyTruthyStr row.device then (false, db)
    else if was_notified user_id db then (false, db)
    else if !pyTruthyInt row.referrer_id then (false, db)
    else
      match row.referrer_id with
      | none => (false, db)
      | some rid =>
        match get_user_group rid db with
        | none => (false, db)
        | some _ => (true, mark_notified user_id db)

/-- `DEVICE_OPTIONS.get(callback.data, "Невідомо")` (src/bot_poll.py:38,1008). -/
def deviceOptionLabel (data : String) : String :=
  if data = "poll_device_yes" then "Так, є"
  else if data = "poll_device_no" then "Ні, немає"
  else "Невідомо"

/-- `handle_device_choice` (src/bot_poll.py:1006): persist the device
answer, cancel the pending reminder task, mark `reminder_sent`, then run
the notification guard.  Returns (db, tasks, notification sent). -/
def handle_device_choice (user_id : Int) (data : String) (db : DB) (tasks : Tasks) :
    DB × Tasks × Bool :=
  let db1 := update_poll_response user_id none none (some (deviceOptionLabel data)) db
  let tasks1 := cancel_reminder_task user_id tasks
  let db2 := mark_reminder_sent user_id db1
  let sent := notify_group_about_poll user_id db2
  (sent.2, tasks1, sent.1)

/-- The `ref_part` of a start payload body: everything before the first
`_note_`, or the whole body when `_note_` does not occur
(`body.split("_note_", maxsplit=1)`). -/
def refNoteSplit (body : List Char) : List Char × Option (List Char) :=
  match findSub "_note_".data body with
  | some i => (body.take i, some (body.drop (i + 6)))
  | none => (body, none)

/-- `handle_referral_payload` (src/bot_poll.py:673): parse
`ref_<id>[_note_<id>]`, ignore missing/foreign-prefix payloads,
unparseable referrer ids and self-referrals; an unparseable note id
becomes `None`.  On success: record the referral click, record the note
click when the note id is truthy, and ensure the poll row. -/
def handle_referral_payload (payload : Option (List Char)) (user_id : Int) (db : DB) : DB :=
  match payload with
  | none => db
  | some p =>
    if p.length == 0 || !pyStartsWith "ref_".data p then db
    else
      let body := p.drop 4
      let rn := refNoteSplit body
      let note_id : Option Int :=
        match rn.2 with
        | some np => pyParseInt np
        | none => none
      match pyParseInt rn.1 with
      | none => db
      | some ref_id =>
        if ref_id = user_id then db
        else
          let db1 := record_referral_click ref_id user_id note_id db
          let db2 :=
            match note_id with
            | some n => if n != 0 then record_note_click n user_id db1 else db1
            | none => db1
          ensure_poll_row user_id (some ref_id) note_id db2

/-! ## google_sheets_logger.py -/

/-- The characters removed by `INVALID_SHEET_CHARS_RE` (src/google_sheets_logger.py:9). -/
def invalidSheetChar (c : Char) : Bool :=
  c == '[' || c == ']' || c == ':' || c == '*' || c == '?' || c == '/' || c == '\\'

/-- `INVALID_SHEET_CHARS_RE.sub(" ", s)`. -/
def subInvalid (l : List Char) : List Char :=
  l.map (fun c => if invalidSheetChar c then ' ' else c)

/-- Worker of `pySplitWords`: accumulate the current (reversed) word. -/
def pySplitWordsGo : List Char → List Char → List (List Char)
  | [], acc => if acc.isEmpty then [] else [acc.reverse]
  | c :: cs, acc =>
    if isSpaceChar c then
      if acc.isEmpty then pySplitWordsGo cs [] else acc.reverse :: pySplitWordsGo cs []
    else pySplitWordsGo cs (c :: acc)

/-- Python `s.split()` with no argument: maximal runs of non-whitespace. -/
def pySplitWords (l : List Char) : List (List Char) :=
  pySplitWordsGo l []

/-- Python `" ".join(ws)`. -/
def joinSpace : List (List Char) → List Char
  | [] => []
  | [w] => w
  | w :: ws => w ++ ' ' :: joinSpace ws

/-- `" ".join(s.split())`: collapse whitespace runs to single spaces. -/
def normalizeWs (l : List Char) : List Char :=
  joinSpace (pySplitWords l)

/-- `MAX_SHEET_NAME_LEN` (src/google_sheets_logger.py:10). -/
def MAX_SHEET_NAME_LEN : Nat := 95

/-- The `suffix` local of `sanitize_sheet_name`: `f" [{group_id}]"`. -/
def sheetSuffix (gid : Int) : List Char :=
  ' ' :: '[' :: (pyIntRepr gid ++ [']'])

/-- The `base` local of `sanitize_sheet_name` for a non-`None` group id:
`(group_title or f"group_{group_id}").strip() or f"group_{group_id}"`. -/
def sheetBase (gid : Int) (group_title : Option (List Char)) : List Char :=
  let dfault := "group_".data ++ pyIntRepr gid
  let titled :=
    match group_title with
    | some t => if t.isEmpty then dfault else t
    | none => dfault
  if (pyStrip titled).isEmpty then dfault else pyStrip titled

/-- The `safe_base` local of `sanitize_sheet_name`: strip the invalid
characters, collapse whitespace, fall back to `"group_unknown"` when
nothing remains. -/
def sheetSafeBase (base : List Char) : List Char :=
  if (normalizeWs (subInvalid base)).isEmpty then "group_unknown".data
  else normalizeWs (subInvalid base)

/-- The `trimmed_base` local of `sanitize_sheet_name`:
`safe_base[:max(base_limit, 1)].rstrip() or "group"`.  Python's
`max(base_limit, 1)` on a possibly negative `95 - len(suffix)` coincides
with `max (95 - len) 1` on truncated `Nat` subtraction. -/
def sheetTrimmedBase (safeBase suffix : List Char) : List Char :=
  if (pyRstrip (safeBase.take (max (MAX_SHEET_NAME_LEN - suffix.length) 1))).isEmpty then
    "group".data
  else pyRstrip (safeBase.take (max (MAX_SHEET_NAME_LEN - suffix.length) 1))

/-- `sanitize_sheet_name` (src/google_sheets_logger.py:35). -/
def sanitize_sheet_name (group_id : Option Int) (group_title : Option (List Char)) :
    List Char :=
  match group_id with
  | none => (sheetSafeBase "group_unknown".data).take MAX_SHEET_NAME_LEN
  | some gid =>
    sheetTrimmedBase (sheetSafeBase (sheetBase gid group_title)) (sheetSuffix gid) ++
      sheetSuffix gid

/-- Configuration slice of `SheetsReferralLogger.__init__`
(src/google_sheets_logger.py:84): `spreadsheet_id or ""` and
`service_account_json or ""` normalise `None` to the empty string. -/
structure SheetsConfig where
  enabled : Bool
  spreadsheet_id : String
  service_account_json : String
deriving DecidableEq, Repr

/-- Mutable state of `SheetsReferralLogger`: the one-shot config-error
flag and the logger's emitted error lines. -/
structure SheetsLoggerState where
  config_error_logged : Bool
  error_log : List String
deriving DecidableEq, Repr

/-- `SheetsReferralEvent` (src/google_sheets_logger.py:69). -/
structure SheetsReferralEvent where
  group_id : Option Int
  group_title : Option String
  referrer_id : Int
  referrer_username : Option String
  referred_user_id : Int
  referred_username : Option String
  note_id : Option Int
  note_title : Option String
  note_url : Option String
  source : String
deriving DecidableEq, Repr

/-- Python `"%s" % v` for an optional integer (`None` renders as "None"). -/
def optIntRepr : Option Int → String
  | none => "None"
  | some i => ⟨pyIntRepr i⟩

/-- The config-error line (src/google_sheets_logger.py:131). -/
def sheetsConfigErrorMsg : String :=
  "Google Sheets logger is enabled but missing config: " ++
    "GOOGLE_SHEETS_SPREADSHEET_ID or GOOGLE_SERVICE_ACCOUNT_JSON"

/-- The failure line of the `except` clause (src/google_sheets_logger.py:153),
carrying the group/referrer/referred/note context. -/
def sheetsFailureMsg (e : SheetsReferralEvent) (exc : String) : String :=
  "Failed to log referral click to Google Sheets (group_id=" ++ optIntRepr e.group_id ++
    " referrer_id=" ++ optIntRepr (some e.referrer_id) ++
    " referred_user_id=" ++ optIntRepr (some e.referred_user_id) ++
    " note_id=" ++ optIntRepr e.note_id ++ "): " ++ exc

/-- The `try` body: the serialized awaited append then stats upsert; the
outcome of each external sheet call (success, or the exception it raises
— timeout, network, API error) is an `Except` oracle, and the first
failure aborts the rest, as an exception would. -/
def sheetsAttempt (appendRes upsertRes : Except String Unit) : Except String Unit := do
  appendRes
  upsertRes

/-- `SheetsReferralLogger.log_referral_click_event`
(src/google_sheets_logger.py:125) as a transformer on the logger state.
`Except.error` in the result would be an exception propagating to the
caller; the `try/except Exception` of the source catches everything the
sheet calls raise. -/
def log_referral_click_event (cfg : SheetsConfig) (st : SheetsLoggerState)
    (e : SheetsReferralEvent) (appendRes upsertRes : Except String Unit) :
    Except String SheetsLoggerState :=
  if !cfg.enabled then .ok st
  else if cfg.spreadsheet_id == "" || cfg.service_account_json == "" then
    if !st.config_error_logged then
      .ok { st with config_error_logged := true,
                    error_log := st.error_log ++ [sheetsConfigErrorMsg] }
    else .ok st
  else
    match sheetsAttempt appendRes upsertRes with
    | .ok _ => .ok st
    | .error exc => .ok { st with error_log := st.error_log ++ [sheetsFailureMsg e exc] }


/-! ## Association-list lemmas -/

theorem lookupPoll_setPoll_self (uid : Int) (f : PollRow → PollRow)
    (t : List (Int × PollRow)) :
    lookupPoll uid (setPoll uid f t) = (lookupPoll uid t).map f := by
  induction t with
  | nil => rfl
  | cons hd tl ih =>
    obtain ⟨k, r⟩ := hd
    by_cases h : k = uid <;> simp [lookupPoll, setPoll, h, ih]

theorem lookupPoll_append_single (uid : Int) (r : PollRow) (t : List (Int × PollRow))
    (h : lookupPoll uid t = none) : lookupPoll uid (t ++ [(uid, r)]) = some r := by
  induction t with
  | nil => simp [lookupPoll]
  | cons hd tl ih =>
    obtain ⟨k, x⟩ := hd
    by_cases hk : k = uid
    · simp [lookupPoll, hk] at h
    · simp only [List.cons_append, lookupPoll, if_neg hk] at h ⊢
      exact ih h

theorem lookupPoll_ensure_none (uid : Int) (r n : Option Int) (db : DB)
    (h : lookupPoll uid db.poll_responses = none) :
    lookupPoll uid (ensure_poll_row uid r n db).poll_responses =
      some { referrer_id := r, note_id := n, age := none, income := none,
             device := none, notified := false, reminder_sent := false } := by
  unfold ensure_poll_row
  rw [h]
  exact lookupPoll_append_single uid _ _ h

theorem lookupPoll_ensure_some (uid : Int) (r n : Option Int) (db : DB) (row : PollRow)
    (h : lookupPoll uid db.poll_responses = some row) :
    lookupPoll uid (ensure_poll_row uid r n db).poll_responses =
      some { row with
             referrer_id := match row.referrer_id with
               | some v => some v
               | none => r
             note_id := match n with
               | some m => some m
               | none => row.note_id } := by
  unfold ensure_poll_row
  rw [h]
  simp [lookupPoll_setPoll_self, h]

theorem lookupPoll_ensure_isSome (uid : Int) (r n : Option Int) (db : DB) :
    ∃ row, lookupPoll uid (ensure_poll_row uid r n db).poll_responses = some row := by
  cases h : lookupPoll uid db.poll_responses with
  | none => exact ⟨_, lookupPoll_ensure_none uid r n db h⟩
  | some row => exact ⟨_, lookupPoll_ensure_some uid r n db row h⟩

/-! ## C5 — first-attribution-wins for the referrer -/

/-- C5: for every user whose poll row already has a non-null
`referrer_id`, a later `ensure_poll_row` call carrying any (different or
equal) referrer leaves the stored `referrer_id` unchanged. -/
theorem ensure_poll_row_first_attribution_wins (uid v : Int) (r2 n : Option Int)
    (db : DB) (row : PollRow) (hrow : lookupPoll uid db.poll_responses = some row)
    (href : row.referrer_id = some v) :
    ∃ row', lookupPoll uid (ensure_poll_row uid r2 n db).poll_responses = some row' ∧
      row'.referrer_id = some v := by
  refine ⟨_, lookupPoll_ensure_some uid r2 n db row hrow, ?_⟩
  simp [href]

def dbC5 : DB :=
  { emptyDB with poll_responses :=
      [(200, { referrer_id := some 100, note_id := some 1, age := none, income := none,
               device := none, notified := false, reminder_sent := false })] }

theorem ensure_poll_row_first_attribution_wins_witness :
    ∃ row', lookupPoll 200 (ensure_poll_row 200 (some 555) none dbC5).poll_responses
        = some row' ∧ row'.referrer_id = some 100 :=
  ensure_poll_row_first_attribution_wins 200 100 (some 555) none dbC5
    { referrer_id := some 100, note_id := some 1, age := none, income := none,
      device := none, notified := false, reminder_sent := false }
    (by decide) (by decide)

/-! ## C10 — note attribution is last-wins -/

/-- C10: unlike the referrer, the note is last-wins — `ensure_poll_row`
with a non-null `note_id` overwrites the stored one, while a null
`note_id` leaves it unchanged. -/
theorem ensure_poll_row_note_last_wins (uid : Int) (m : Int) (r : Option Int)
    (db : DB) (row : PollRow) (hrow : lookupPoll uid db.poll_responses = some row) :
    (∃ row', lookupPoll uid (ensure_poll_row uid r (some m) db).poll_responses
        = some row' ∧ row'.note_id = some m) ∧
    (∃ row', lookupPoll uid (ensure_poll_row uid r none db).poll_responses
        = some row' ∧ row'.note_id = row.note_id) := by
  exact ⟨⟨_, lookupPoll_ensure_some uid r (some m) db row hrow, rfl⟩,
         ⟨_, lookupPoll_ensure_some uid r none db row hrow, rfl⟩⟩

def dbC10 : DB :=
  { emptyDB with poll_responses :=
      [(201, { referrer_id := some 100, note_id := some 1, age := none, income := none,
               device := none, notified := false, reminder_sent := false })] }

theorem ensure_poll_row_note_last_wins_witness :
    (∃ row', lookupPoll 201 (ensure_poll_row 201 none (some 7) dbC10).poll_responses
        = some row' ∧ row'.note_id = some 7) ∧
    (∃ row', lookupPoll 201 (ensure_poll_row 201 none none dbC10).poll_responses
        = some row' ∧ row'.note_id = some 1) :=
  ensure_poll_row_note_last_wins 201 7 none dbC10
    { referrer_id := some 100, note_id := some 1, age := none, income := none,
      device := none, notified := false, reminder_sent := false }
    (by decide)

/-! ## C1 — the notification claim succeeds exactly once -/

/-- C1: for a user with an existing poll row whose `notified` flag is
still false, two successive invocations of the claim operation yield
exactly one success then one failure: the first sets `notified`, the
second observes it and changes nothing. -/
theorem try_claim_notification_claims_once (uid : Int) (db : DB) (row : PollRow)
    (hrow : lookupPoll uid db.poll_responses = some row) (hn : row.notified = false) :
    (try_claim_notification uid db).1 = true ∧
    lookupPoll uid (try_claim_notification uid db).2.poll_responses
      = some { row with notified := true } ∧
    (try_claim_notification uid (try_claim_notification uid db).2).1 = false ∧
    (try_claim_notification uid (try_claim_notification uid db).2).2
      = (try_claim_notification uid db).2 := by
  have h1 : try_claim_notification uid db =
      (true, { db with poll_responses :=
                setPoll uid (fun r => { r with notified := true }) db.poll_responses }) := by
    unfold try_claim_notification
    rw [hrow]
    simp [hn]
  have h2 : lookupPoll uid
      (setPoll uid (fun r => { r with notified := true }) db.poll_responses)
      = some { row with notified := true } := by
    rw [lookupPoll_setPoll_self, hrow]
    rfl
  have h3 : try_claim_notification uid (try_claim_notification uid db).2
      = (false, (try_claim_notification uid db).2) := by
    rw [h1]
    unfold try_claim_notification
    rw [h2]
    simp
  exact ⟨by rw [h1], by rw [h1]; exact h2, by rw [h3], by rw [h3]⟩

def dbC1 : DB :=
  { emptyDB with poll_responses :=
      [(321, { referrer_id := some 100, note_id := some 1, age := none, income := none,
               device := some "Так, є", notified := false, reminder_sent := false })] }

theorem try_claim_notification_claims_once_witness :
    (try_claim_notification 321 dbC1).1 = true ∧
    (try_claim_notification 321 (try_claim_notification 321 dbC1).2).1 = false :=
  ⟨(try_claim_notification_claims_once 321 dbC1
      { referrer_id := some 100, note_id := some 1, age := none, income := none,
        device := some "Так, є", notified := false, reminder_sent := false }
      (by decide) (by decide)).1,
   (try_claim_notification_claims_once 321 dbC1
      { referrer_id := some 100, note_id := some 1, age := none, income := none,
        device := some "Так, є", notified := false, reminder_sent := false }
      (by decide) (by decide)).2.2.1⟩

/-! ## C2 — update_poll_response and the notified flag -/

def dbC2 : DB :=
  { emptyDB with poll_responses :=
      [(654, { referrer_id := some 100, note_id := some 1, age := some "18-24",
               income := none, device := none, notified := true, reminder_sent := false })] }

/-- C2 (code bug): on a row whose `notified` flag is already set, a
device-only `update_poll_response` resets `notified` to false —
src/bot_poll.py:433 appends `notified = 0` for every non-empty update,
device included, contradicting the claim and the repository's own test
`test_update_poll_response_does_not_reset_notified_on_device_update`.
(The claim's other half — an age update before any notification leaves
`notified` false — does hold, as the last conjunct shows.) -/
theorem update_poll_response_device_resets_notified :
    was_notified 654 dbC2 = true ∧
    was_notified 654 (update_poll_response 654 none none (some "Так, є") dbC2) = false ∧
    was_notified 654 (update_poll_response 654 (some "18-24") none none
      { dbC2 with poll_responses :=
          [(654, { referrer_id := some 100, note_id := some 1, age := none,
                   income := none, device := none, notified := false,
                   reminder_sent := false })] }) = false := by
  decide

/-! ## C3 — uniqueness key of referral clicks -/

/-- C3 (code bug): the `referral_clicks` UNIQUE constraint covers only
`(referrer_id, referred_user_id)`, so a second click by the same referred
user through a *different* note of the same referrer is silently ignored —
contradicting the claim and the repository's own test
`test_record_referral_click_allows_same_user_with_different_note`. -/
theorem record_referral_click_ignores_second_note :
    (record_referral_click 100 200 (some 2)
      (record_referral_click 100 200 (some 1) emptyDB)).referral_clicks
      = [{ referrer_id := 100, referred_user_id := 200, note_id := some 1 }] := by
  decide

/-! ## C4 — duplicate clicks are silent no-ops -/

theorem record_click_any_true (r u : Int) (n : Option Int) (db : DB) :
    ((record_referral_click r u n db).referral_clicks.any fun c =>
      c.referrer_id == r && c.referred_user_id == u) = true := by
  unfold record_referral_click
  by_cases h : (db.referral_clicks.any fun c =>
      c.referrer_id == r && c.referred_user_id == u) = true
  · rw [if_pos h]
    exact h
  · rw [if_neg h]
    simp [List.any_append]

/-- C4 (partially held): a duplicate referral click is a pure no-op on
the stored clicks — it cannot raise (the embedding is total, mirroring
`INSERT OR IGNORE`) and leaves the table unchanged.  The claimed boolean
"inserted" result, however, does not exist in src/bot_poll.py: the
function returns `None` unconditionally (the state-only return type
here), contradicting the repository's own tests. -/
theorem record_referral_click_duplicate_noop (r u : Int) (n n' : Option Int) (db : DB) :
    record_referral_click r u n' (record_referral_click r u n db)
      = record_referral_click r u n db := by
  have hmem := record_click_any_true r u n db
  generalize hdb2 : record_referral_click r u n db = db2 at hmem ⊢
  unfold record_referral_click
  rw [if_pos hmem]

/-! ## C6 — start-payload parsing -/

/-- C6 (counterexample to the claim as stated): the payload
`ref_100_note_x` has a non-integer note field, yet it is *not* silently
ignored — src/bot_poll.py:683 turns the unparseable note into `None` and
still records the click and creates the poll row. -/
theorem handle_referral_payload_bad_note_still_records :
    (handle_referral_payload (some "ref_100_note_x".data) 200 emptyDB).referral_clicks
      = [{ referrer_id := 100, referred_user_id := 200, note_id := none }] ∧
    (handle_referral_payload (some "ref_100_note_x".data) 200 emptyDB).poll_responses ≠ [] := by
  decide

/-- C6 (amended): a missing payload, a payload not starting with `ref_`,
a non-integer referrer field, or a self-referential referrer id is
silently ignored — no click is recorded and no poll row is touched.  (A
non-integer *note* field, by contrast, is treated as "no note" and the
click is still recorded, as the counterexample shows.) -/
theorem handle_referral_payload_ignores_malformed (p : List Char) (uid : Int) (db : DB) :
    handle_referral_payload none uid db = db ∧
    (pyStartsWith "ref_".data p = false → handle_referral_payload (some p) uid db = db) ∧
    (pyParseInt (refNoteSplit (p.drop 4)).1 = none →
      handle_referral_payload (some p) uid db = db) ∧
    (pyParseInt (refNoteSplit (p.drop 4)).1 = some uid →
      handle_referral_payload (some p) uid db = db) := by
  refine ⟨rfl, ?_, ?_, ?_⟩
  · intro h
    unfold handle_referral_payload
    simp [h]
  · intro h
    unfold handle_referral_payload
    by_cases hl : p.length == 0
    · simp [hl]
    · simp only [hl, Bool.false_or, h]
      split <;> rfl
  · intro h
    unfold handle_referral_payload
    by_cases hl : p.length == 0
    · simp [hl]
    · simp only [hl, Bool.false_or, h]
      split <;> simp

theorem handle_referral_payload_ignores_malformed_witness :
    handle_referral_payload (some "ref_abc".data) 5 emptyDB = emptyDB :=
  (handle_referral_payload_ignores_malformed "ref_abc".data 5 emptyDB).2.2.1 (by decide)

/-! ## C7 — the reminder guard -/

theorem lookupPoll_update_isSome (uid : Int) (a i d : Option String) (db : DB) :
    (lookupPoll uid (update_poll_response uid a i d db).poll_responses).isSome = true := by
  obtain ⟨row, hrow⟩ := lookupPoll_ensure_isSome uid (get_referrer_id uid db) none db
  unfold update_poll_response
  split
  · rw [hrow]
    rfl
  · rw [lookupPoll_setPoll_self, hrow]
    rfl

theorem lookupPoll_mark_reminder_sent (uid : Int) (db : DB) (row : PollRow)
    (h : lookupPoll uid db.poll_responses = some row) :
    lookupPoll uid (mark_reminder_sent uid db).poll_responses
      = some { row with reminder_sent := true } := by
  unfold mark_reminder_sent
  simp [lookupPoll_setPoll_self, h]

theorem notify_group_preserves_reminder_sent (uid : Int) (db : DB) (row : PollRow)
    (h : lookupPoll uid db.poll_responses = some row) :
    ∃ row', lookupPoll uid (notify_group_about_poll uid db).2.poll_responses
        = some row' ∧ row'.reminder_sent = row.reminder_sent := by
  unfold notify_group_about_poll
  split
  · exact ⟨row, h, rfl⟩
  next row2 h2 =>
    rw [h] at h2
    cases h2
    split
    · exact ⟨row, h, rfl⟩
    · split
      · exact ⟨row, h, rfl⟩
      · split
        · exact ⟨row, h, rfl⟩
        · split
          · exact ⟨row, h, rfl⟩
          next rid hrid =>
            split
            · exact ⟨row, h, rfl⟩
            · exact ⟨{ row with notified := true },
                by unfold mark_notified; rw [lookupPoll_setPoll_self, h]; rfl, rfl⟩

/-- C7: the reminder guard.  (1) The woken reminder task sends only when
the poll row exists with the device question unanswered and
`reminder_sent` unset, and marks `reminder_sent` when it does;
(2) answering the device question removes the user's pending task from
the registry; (3) after the device answer, a (stale) woken task no longer
sends; (4) scheduling keeps exactly one outstanding task per user. -/
theorem reminder_guard (uid : Int) (data : String) (db : DB) (ts : Tasks) (t : Nat) :
    ((reminder_worker_wake uid db).1 = true →
      ∃ row, lookupPoll uid db.poll_responses = some row ∧
        pyTruthyStr row.device = false ∧ row.reminder_sent = false ∧
        lookupPoll uid (reminder_worker_wake uid db).2.poll_responses
          = some { row with reminder_sent := true }) ∧
    (∀ e ∈ (handle_device_choice uid data db ts).2.1, e.1 ≠ uid) ∧
    (reminder_worker_wake uid (handle_device_choice uid data db ts).1).1 = false ∧
    List.countP (fun e => e.1 == uid) (schedule_reminder uid t ts) = 1 := by
  refine ⟨?_, ?_, ?_, ?_⟩
  · intro hsent
    unfold reminder_worker_wake at hsent ⊢
    split at hsent
    · cases hsent
    next row hrow =>
      split at hsent
      · cases hsent
      next hcond =>
        simp only [Bool.not_eq_true, Bool.or_eq_false_iff] at hcond
        refine ⟨row, hrow, hcond.1, hcond.2, ?_⟩
        rw [if_neg (by simp [hcond.1, hcond.2])]
        exact lookupPoll_mark_reminder_sent uid db row hrow
  · intro e he
    unfold handle_device_choice cancel_reminder_task at he
    simp only [List.mem_filter] at he
    simpa using he.2
  · obtain ⟨r1, hr1⟩ := Option.isSome_iff_exists.mp
      (lookupPoll_update_isSome uid none none (some (deviceOptionLabel data)) db)
    have h2 := lookupPoll_mark_reminder_sent uid _ r1 hr1
    obtain ⟨r3, hr3, hrs⟩ := notify_group_preserves_reminder_sent uid _ _ h2
    unfold handle_device_choice
    unfold reminder_worker_wake
    rw [hr3]
    simp [hrs]
  · unfold schedule_reminder cancel_reminder_task
    rw [List.countP_cons]
    simp only [beq_self_eq_true, if_pos]
    have hz : List.countP (fun e => e.1 == uid) (ts.filter fun e => e.1 != uid) = 0 := by
      rw [List.countP_eq_zero]
      intro a ha
      rw [List.mem_filter] at ha
      simpa using ha.2
    omega

def dbC7 : DB :=
  { emptyDB with poll_responses :=
      [(7, { referrer_id := some 100, note_id := none, age := some "18-24",
             income := none, device := none, notified := false, reminder_sent := false })] }

theorem reminder_guard_witness :
    (∃ row, lookupPoll 7 dbC7.poll_responses = some row ∧
      pyTruthyStr row.device = false ∧ row.reminder_sent = false ∧
      lookupPoll 7 (reminder_worker_wake 7 dbC7).2.poll_responses
        = some { row with reminder_sent := true }) ∧
    List.countP (fun e => e.1 == (7 : Int)) (schedule_reminder 7 0 [(7, 5), (9, 2)]) = 1 :=
  ⟨(reminder_guard 7 "poll_device_yes" dbC7 [] 0).1 (by decide),
   (reminder_guard 7 "poll_device_yes" dbC7 [(7, 5), (9, 2)] 0).2.2.2⟩

/-! ## C8 — sheet-name sanitising: auxiliary lemmas -/

theorem list_isEmpty_iff {α : Type} (l : List α) : l.isEmpty = true ↔ l = [] := by
  cases l <;> simp

theorem mem_dropWhile (p : Char → Bool) :
    ∀ (l : List Char) (c : Char), c ∈ List.dropWhile p l → c ∈ l := by
  intro l
  induction l with
  | nil => intro c hc; cases hc
  | cons x xs ih =>
    intro c hc
    rw [List.dropWhile_cons] at hc
    split at hc
    · exact List.mem_cons_of_mem _ (ih c hc)
    · exact hc

theorem dropWhile_length_le (p : Char → Bool) :
    ∀ l : List Char, (List.dropWhile p l).length ≤ l.length := by
  intro l
  induction l with
  | nil => simp
  | cons x xs ih =>
    rw [List.dropWhile_cons]
    split
    · exact Nat.le_trans ih (Nat.le_succ _)
    · exact Nat.le_refl _

theorem dropWhile_append_single_ne (p : Char → Bool) (c : Char) (h : p c = false) :
    ∀ ys : List Char, List.dropWhile p (ys ++ [c]) ≠ [] := by
  intro ys
  induction ys with
  | nil => simp [List.dropWhile_cons, h]
  | cons y ys ih =>
    rw [List.cons_append, List.dropWhile_cons]
    split
    · exact ih
    · simp

theorem pyRstrip_cons_ne (c : Char) (cs : List Char) (h : isSpaceChar c = false) :
    pyRstrip (c :: cs) ≠ [] := by
  unfold pyRstrip
  rw [List.reverse_cons]
  intro hcontra
  rw [List.reverse_eq_nil_iff] at hcontra
  exact dropWhile_append_single_ne isSpaceChar c h cs.reverse hcontra

theorem pyRstrip_subset (l : List Char) : ∀ c ∈ pyRstrip l, c ∈ l := by
  intro c hc
  unfold pyRstrip at hc
  rw [List.mem_reverse] at hc
  have h2 := mem_dropWhile isSpaceChar l.reverse c hc
  rwa [List.mem_reverse] at h2

theorem pyRstrip_length_le (l : List Char) : (pyRstrip l).length ≤ l.length := by
  unfold pyRstrip
  rw [List.length_reverse]
  have h := dropWhile_length_le isSpaceChar l.reverse
  rwa [List.length_reverse] at h

theorem subInvalid_no_invalid (l : List Char) :
    ∀ c ∈ subInvalid l, invalidSheetChar c = false := by
  intro c hc
  unfold subInvalid at hc
  rw [List.mem_map] at hc
  obtain ⟨x, _, hx⟩ := hc
  subst hx
  by_cases hinv : invalidSheetChar x = true
  · rw [if_pos hinv]
    rfl
  · rw [if_neg hinv]
    exact Bool.eq_false_iff.mpr hinv

theorem mem_pySplitWordsGo (l : List Char) :
    ∀ (acc w : List Char), w ∈ pySplitWordsGo l acc → ∀ c ∈ w, c ∈ l ∨ c ∈ acc := by
  induction l with
  | nil =>
    intro acc w hw c hc
    unfold pySplitWordsGo at hw
    split at hw
    · cases hw
    · rw [List.mem_singleton] at hw
      subst hw
      exact Or.inr (List.mem_reverse.mp hc)
  | cons x xs ih =>
    intro acc w hw c hc
    unfold pySplitWordsGo at hw
    split at hw
    · split at hw
      · rcases ih [] w hw c hc with h | h
        · exact Or.inl (List.mem_cons_of_mem _ h)
        · cases h
      · rcases List.mem_cons.mp hw with h | h
        · subst h
          exact Or.inr (List.mem_reverse.mp hc)
        · rcases ih [] w h c hc with h2 | h2
          · exact Or.inl (List.mem_cons_of_mem _ h2)
          · cases h2
    · rcases ih (x :: acc) w hw c hc with h | h
      · exact Or.inl (List.mem_cons_of_mem _ h)
      · rcases List.mem_cons.mp h with h2 | h2
        · subst h2
          exact Or.inl (List.mem_cons_self _ _)
        · exact Or.inr h2

theorem pySplitWordsGo_words (l : List Char) :
    ∀ acc, (∀ c ∈ acc, isSpaceChar c = false) →
      ∀ w ∈ pySplitWordsGo l acc, w ≠ [] ∧ ∀ c ∈ w, isSpaceChar c = false := by
  induction l with
  | nil =>
    intro acc hacc w hw
    unfold pySplitWordsGo at hw
    split at hw
    · cases hw
    next hne =>
      rw [List.mem_singleton] at hw
      subst hw
      refine ⟨?_, ?_⟩
      · intro h
        rw [List.reverse_eq_nil_iff] at h
        subst h
        simp at hne
      · intro c hc
        exact hacc c (List.mem_reverse.mp hc)
  | cons x xs ih =>
    intro acc hacc w hw
    unfold pySplitWordsGo at hw
    split at hw
    · split at hw
      · exact ih [] (by intro c hc; cases hc) w hw
      next hne =>
        rcases List.mem_cons.mp hw with h | h
        · subst h
          refine ⟨?_, ?_⟩
          · intro h2
            rw [List.reverse_eq_nil_iff] at h2
            subst h2
            simp at hne
          · intro c hc
            exact hacc c (List.mem_reverse.mp hc)
        · exact ih [] (by intro c hc; cases hc) w h
    next hx =>
      refine ih (x :: acc) ?_ w hw
      intro c hc
      rcases List.mem_cons.mp hc with h | h
      · subst h
        simpa using hx
      · exact hacc c h

theorem mem_joinSpace :
    ∀ (ws : List (List Char)) (c : Char), c ∈ joinSpace ws →
      c = ' ' ∨ ∃ w ∈ ws, c ∈ w := by
  intro ws
  induction ws with
  | nil =>
    intro c hc
    cases hc
  | cons w ws ih =>
    intro c hc
    cases ws with
    | nil => exact Or.inr ⟨w, List.mem_cons_self _ _, hc⟩
    | cons v vs =>
      rw [show joinSpace (w :: v :: vs) = w ++ ' ' :: joinSpace (v :: vs) from rfl] at hc
      rcases List.mem_append.mp hc with h | h
      · exact Or.inr ⟨w, List.mem_cons_self _ _, h⟩
      · rcases List.mem_cons.mp h with h2 | h2
        · exact Or.inl h2
        · rcases ih c h2 with h3 | ⟨u, hu, hcu⟩
          · exact Or.inl h3
          · exact Or.inr ⟨u, List.mem_cons_of_mem _ hu, hcu⟩

theorem joinSpace_head (ws : List (List Char))
    (h : ∀ w ∈ ws, w ≠ [] ∧ ∀ c ∈ w, isSpaceChar c = false) :
    joinSpace ws = [] ∨ ∃ c cs, joinSpace ws = c :: cs ∧ isSpaceChar c = false := by
  cases ws with
  | nil => exact Or.inl rfl
  | cons w ws =>
    obtain ⟨hne, hw⟩ := h w (List.mem_cons_self _ _)
    cases hw2 : w with
    | nil => exact absurd hw2 hne
    | cons c cs =>
      right
      have hc : isSpaceChar c = false := hw c (by rw [hw2]; exact List.mem_cons_self _ _)
      cases ws with
      | nil => exact ⟨c, cs, rfl, hc⟩
      | cons v vs => exact ⟨c, cs ++ ' ' :: joinSpace (v :: vs), rfl, hc⟩

theorem sheetSafeBase_no_invalid (b : List Char) :
    ∀ c ∈ sheetSafeBase b, invalidSheetChar c = false := by
  intro c hc
  unfold sheetSafeBase at hc
  split at hc
  · have hall : ∀ c ∈ "group_unknown".data, invalidSheetChar c = false := by decide
    exact hall c hc
  · unfold normalizeWs pySplitWords at hc
    rcases mem_joinSpace _ c hc with h | ⟨w, hw, hcw⟩
    · subst h
      rfl
    · rcases mem_pySplitWordsGo _ [] w hw c hcw with h2 | h2
      · exact subInvalid_no_invalid b c h2
      · cases h2

theorem sheetSafeBase_head (b : List Char) :
    ∃ c cs, sheetSafeBase b = c :: cs ∧ isSpaceChar c = false := by
  unfold sheetSafeBase
  split
  · exact ⟨'g', "roup_unknown".data, by decide, by decide⟩
  next hne =>
    rcases joinSpace_head (pySplitWords (subInvalid b))
        (pySplitWordsGo_words (subInvalid b) [] (by intro c hc; cases hc)) with h | hex
    · exact absurd (by unfold normalizeWs; rw [h]; rfl) hne
    · exact hex

theorem sheetTrimmedBase_eq (SB suf : List Char)
    (h : ∃ c cs, SB = c :: cs ∧ isSpaceChar c = false) :
    sheetTrimmedBase SB suf
      = pyRstrip (SB.take (max (MAX_SHEET_NAME_LEN - suf.length) 1)) := by
  obtain ⟨c, cs, heq, hc⟩ := h
  have hne : pyRstrip (SB.take (max (MAX_SHEET_NAME_LEN - suf.length) 1)) ≠ [] := by
    rw [heq]
    have hk : max (MAX_SHEET_NAME_LEN - suf.length) 1
        = (max (MAX_SHEET_NAME_LEN - suf.length) 1 - 1) + 1 := by omega
    rw [hk, List.take_succ_cons]
    exact pyRstrip_cons_ne c _ hc
  unfold sheetTrimmedBase
  rw [if_neg fun h2 => hne ((list_isEmpty_iff _).mp h2)]

/-- C8 (amended): for every title and every group id whose decimal
representation has at most 91 characters (so that the bracketed id
suffix fits in the limit), `sanitize_sheet_name` returns a base free of
the forbidden characters, suffixed with `" [id]"`, and no longer than
`MAX_SHEET_NAME_LEN`.  For longer ids the bound fails, as the
counterexample shows. -/
theorem sanitize_sheet_name_spec (gid : Int) (title : List Char)
    (h : (pyIntRepr gid).length ≤ 91) :
    ∃ b, sanitize_sheet_name (some gid) (some title) = b ++ sheetSuffix gid ∧
      (∀ c ∈ b, invalidSheetChar c = false) ∧
      (sanitize_sheet_name (some gid) (some title)).length ≤ MAX_SHEET_NAME_LEN := by
  refine ⟨sheetTrimmedBase (sheetSafeBase (sheetBase gid (some title))) (sheetSuffix gid),
    rfl, ?_, ?_⟩
  · intro c hc
    rw [sheetTrimmedBase_eq _ _ (sheetSafeBase_head _)] at hc
    exact sheetSafeBase_no_invalid _ c (List.take_subset _ _ (pyRstrip_subset _ c hc))
  · have hsuf : (sheetSuffix gid).length = (pyIntRepr gid).length + 3 := by
      unfold sheetSuffix
      simp
    have hlen : (sheetTrimmedBase (sheetSafeBase (sheetBase gid (some title)))
        (sheetSuffix gid)).length ≤ MAX_SHEET_NAME_LEN - (sheetSuffix gid).length := by
      rw [sheetTrimmedBase_eq _ _ (sheetSafeBase_head _)]
      have h1 := pyRstrip_length_le ((sheetSafeBase (sheetBase gid (some title))).take
        (max (MAX_SHEET_NAME_LEN - (sheetSuffix gid).length) 1))
      have h2 := List.length_take_le
        (max (MAX_SHEET_NAME_LEN - (sheetSuffix gid).length) 1)
        (sheetSafeBase (sheetBase gid (some title)))
      unfold MAX_SHEET_NAME_LEN at *
      omega
    show (sheetTrimmedBase (sheetSafeBase (sheetBase gid (some title))) (sheetSuffix gid)
      ++ sheetSuffix gid).length ≤ MAX_SHEET_NAME_LEN
    rw [List.length_append]
    unfold MAX_SHEET_NAME_LEN at *
    omega

set_option maxRecDepth 4000 in
/-- C8 (counterexample to the claim as stated): the claim quantifies over
*every* group id, but for an id whose decimal representation has 92
characters the `" [id]"` suffix alone fills the 95-character budget and
the result is 96 characters long. -/
theorem sanitize_sheet_name_overflows :
    ¬ (sanitize_sheet_name (some (10 ^ 91)) (some ['A'])).length ≤ MAX_SHEET_NAME_LEN := by
  decide

theorem sanitize_sheet_name_spec_witness :
    ∃ b, sanitize_sheet_name (some 12345) (some "Sales [Q1]/Lead:*?\\".data)
        = b ++ sheetSuffix 12345 ∧
      (∀ c ∈ b, invalidSheetChar c = false) ∧
      (sanitize_sheet_name (some 12345) (some "Sales [Q1]/Lead:*?\\".data)).length
        ≤ MAX_SHEET_NAME_LEN :=
  sanitize_sheet_name_spec 12345 "Sales [Q1]/Lead:*?\\".data (by decide)

/-! ## C9 — the reporting sink never raises into the conversation -/

/-- C9: `log_referral_click_event` always returns normally (`.ok`):
disabled loggers and missing configuration return early (the
configuration error is logged exactly once, via the one-shot flag), and
any failure of the underlying sheet append or stats upsert is caught and
recorded in the error log together with the group/referrer/referred/note
context, never propagating to the caller. -/
theorem log_referral_click_event_never_raises (cfg : SheetsConfig)
    (st : SheetsLoggerState) (e : SheetsReferralEvent) (a u : Except String Unit) :
    (∃ st', log_referral_click_event cfg st e a u = .ok st') ∧
    (cfg.enabled = true →
      (cfg.spreadsheet_id == "" || cfg.service_account_json == "") = true →
      st.config_error_logged = true →
      log_referral_click_event cfg st e a u = .ok st) ∧
    (cfg.enabled = true →
      (cfg.spreadsheet_id == "" || cfg.service_account_json == "") = true →
      st.config_error_logged = false →
      log_referral_click_event cfg st e a u
        = .ok { st with config_error_logged := true,
                        error_log := st.error_log ++ [sheetsConfigErrorMsg] }) ∧
    (∀ exc, cfg.enabled = true →
      (cfg.spreadsheet_id == "" || cfg.service_account_json == "") = false →
      sheetsAttempt a u = .error exc →
      log_referral_click_event cfg st e a u
        = .ok { st with error_log := st.error_log ++ [sheetsFailureMsg e exc] }) := by
  refine ⟨?_, ?_, ?_, ?_⟩
  · unfold log_referral_click_event
    repeat' split
    all_goals exact ⟨_, rfl⟩
  · intro h1 h2 h3
    simp [log_referral_click_event, h1, h2, h3]
  · intro h1 h2 h3
    simp [log_referral_click_event, h1, h2, h3]
  · intro exc h1 h2 h4
    simp [log_referral_click_event, h1, h2, h4]

def cfgC9 : SheetsConfig :=
  { enabled := true, spreadsheet_id := "sheet-id", service_account_json := "/tmp/fake.json" }

def stC9 : SheetsLoggerState := { config_error_logged := false, error_log := [] }

def evC9 : SheetsReferralEvent :=
  { group_id := some 1, group_title := some "Team A", referrer_id := 10,
    referrer_username := some "ref_user", referred_user_id := 20,
    referred_username := some "new_user", note_id := some 30,
    note_title := some "Campaign", note_url := some "https://example.com",
    source := "ref_link" }

theorem log_referral_click_event_never_raises_witness :
    log_referral_click_event cfgC9 stC9 evC9 (.error "timeout") (.ok ())
      = .ok { stC9 with error_log := stC9.error_log ++ [sheetsFailureMsg evC9 "timeout"] } :=
  (log_referral_click_event_never_raises cfgC9 stC9 evC9 (.error "timeout") (.ok ())).2.2.2
    "timeout" rfl rfl rfl
